import Mathlib

/-
  Verification of the instantsearch.js widget module (menu-select and
  search-box widget factories, their renderer closures, class-name
  computation, template merging, and the search-box disposer).

  The JavaScript sources are shallowly embedded: plain values become Lean
  data, JS objects with optional fields become structures of `Option`
  fields, mutation of the per-widget render state becomes explicit state
  passing, thrown exceptions become `Except String`, and observable side
  effects (warnings, DOM writes) become an explicit effect trace.  Opaque
  callbacks (refine, transformData, transformItems, queryHook) are modelled
  as opaque numeric handles: the module never calls them, it only stores
  and forwards them.
-/

namespace InstantSearch

/-- A JavaScript value as far as this module inspects one: the search-box
factory only ever asks `typeof v === "boolean"` of the `autofocus` option. -/
inductive JsValue where
  | bool (b : Bool)
  | str (s : String)
  | num (n : Int)
deriving DecidableEq, Repr

/-- `typeof v === "boolean"` on the modelled JavaScript values. -/
def jsTypeofBoolean : JsValue → Bool
  | .bool _ => true
  | _ => false

/-- A DOM element handle: an identity and a tag name (the only two facts the
module reads from a container element). -/
structure DomNode where
  id : Nat
  tagName : String
deriving DecidableEq, Repr

/-- The `container` option: a CSS selector string or a direct element handle. -/
inductive Container where
  | selector (s : String)
  | node (n : DomNode)
deriving DecidableEq, Repr

/-- JavaScript truthiness of a present `container` value: an element handle is
always truthy, a selector string is falsy exactly when empty. -/
def containerValFalsy : Container → Bool
  | .selector s => s == ""
  | .node _ => false

/-- JavaScript truthiness test `!container` on a possibly-absent container. -/
def containerFalsy : Option Container → Bool
  | none => true
  | some c => containerValFalsy c

/-- The document, as far as selector resolution needs it. -/
structure DomEnv where
  bySelector : List (String × DomNode)
deriving DecidableEq, Repr

/-- Modelled from the spec: `getContainerNode` lives in `lib/utils`, which is
not under the provided sources.  Spec 4.4 step 2: "Resolve the container:
accept either a direct handle or a lookup key; fail with
ContainerNotFoundError if a lookup key resolves to nothing." -/
def getContainerNode (env : DomEnv) : Container → Except String DomNode
  | .node n => Except.ok n
  | .selector s =>
    match env.bySelector.lookup s with
    | some n => Except.ok n
    | none => Except.error ("Container must be a string or HTMLElement. Unable to find " ++ s)

/-- Template bundles are association lists from slot name to template text
(templates are opaque strings to this layer). -/
abbrev Templates : Type := List (String × String)

/-- Model of the external classnames library: whitespace-join the truthy
string arguments, keeping duplicates (no deduplication). -/
def joinSpace : List String → String
  | [] => ""
  | [s] => s
  | s :: rest => s ++ " " ++ joinSpace rest

/-- `cx(...)`: drop absent and empty arguments, whitespace-join the rest. -/
def cx (tokens : List (Option String)) : String :=
  joinSpace ((tokens.filterMap id).filter (fun s => !(s == "")))

/-- Modelled from the spec: the SUIT `component` helper lives in `lib/suit`,
which is not under the provided sources.  Spec 4.1: given a base component
name and optional modifier/descendant name, produce a deterministic CSS class
string; absent optional parameters use module-default root naming. -/
def suitClass (componentName : String) (modifierName : Option String)
    (descendantName : Option String) : String :=
  "ais-" ++ componentName
    ++ (match descendantName with
        | some d => "-" ++ d
        | none => "")
    ++ (match modifierName with
        | some m => "--" ++ m
        | none => "")

/-- JavaScript object-spread merge `\x7b ...defaults, ...user \x7d` on template
bundles: every default slot, overridden by the user value when the user bundle
has that slot, followed by the user slots that are not default slots. -/
def mergeTemplates (defaults user : Templates) : Templates :=
  defaults.map (fun kv => (kv.1, (user.lookup kv.1).getD kv.2))
    ++ user.filter (fun kv => (defaults.lookup kv.1).isNone)

/-- The prepared template bundle stored into the render state on first render
(spec 3: "immutable bundle of resolved templates, default templates, transform
function, consumer-supplied template configuration"). -/
structure TemplateProps where
  transformData : Option Nat
  templatesConfig : List (String × String)
  resolvedTemplates : Templates
  defaultTemplates : Templates
deriving DecidableEq, Repr

/-- Modelled from the spec: `prepareTemplateProps` lives in `lib/utils`, which
is not under the provided sources.  Spec 4.2: for every template slot the
user-supplied template overrides the default; unspecified slots fall back to
the default; the transform function and templatesConfig are carried along. -/
def prepareTemplateProps (transformData : Option Nat) (defaults : Templates)
    (templatesConfig : List (String × String)) (userTemplates : Templates) :
    TemplateProps :=
  { transformData := transformData
    templatesConfig := templatesConfig
    resolvedTemplates := mergeTemplates defaults userTemplates
    defaultTemplates := defaults }

/-- Modelled from the spec: the menu-select `defaultTemplates` module is not
under the provided sources.  Its jsdoc names the slots `item` and
`seeAllOptions`, the latter defaulting to "See all". -/
def menuDefaultTemplates : Templates :=
  [("item", "MENU_SELECT_DEFAULT_ITEM_TEMPLATE"), ("seeAllOptions", "See all")]

/-- Modelled from the spec: the search-box `defaultTemplates` module is not
under the provided sources.  Its jsdoc names the slots `submit`, `reset` and
`loadingIndicator`. -/
def searchBoxDefaultTemplates : Templates :=
  [("submit", "DEFAULT_SUBMIT_TEMPLATE"), ("reset", "DEFAULT_RESET_TEMPLATE"),
   ("loadingIndicator", "DEFAULT_LOADING_INDICATOR_TEMPLATE")]

/-- `s` contains `sub` as a substring. -/
def containsStr (s sub : String) : Prop :=
  ∃ a b : List Char, s.data = a ++ sub.data ++ b

/-- CSS classes of the menu-select widget (search-box.js / part_000 compute one
string per logical slot at factory time). -/
structure MenuSelectCssClasses where
  root : String
  noRefinementRoot : String
  select : String
  option : String
deriving DecidableEq, Repr

/-- User overrides for the menu-select CSS slots. -/
structure MenuSelectCssOverrides where
  root : Option String := none
  noRefinementRoot : Option String := none
  select : Option String := none
  option : Option String := none
deriving DecidableEq, Repr

/-- The per-widget mutable render state: `renderState.templateProps` is absent
until the first render invocation writes it. -/
structure MenuRenderState where
  templateProps : Option TemplateProps
deriving DecidableEq, Repr

/-- The `instantSearchInstance` field of the render payload, as far as the
renderer reads it (only `templatesConfig`). -/
structure InstantSearchInstance where
  templatesConfig : List (String × String)
deriving DecidableEq, Repr

/-- The connector-supplied render payload of the menu-select renderer:
`\x7b refine, items, canRefine, instantSearchInstance \x7d`.  `refine` is an
opaque callback handle. -/
structure MenuPayload where
  refine : Nat
  items : List String
  canRefine : Bool
  instantSearchInstance : InstantSearchInstance
deriving DecidableEq, Repr

/-- The arguments captured by the menu-select `renderer` closure at factory
time, including the fresh (empty) render state object. -/
structure MenuRendererArgs where
  containerNode : Nat
  cssClasses : MenuSelectCssClasses
  renderState : MenuRenderState
  templates : Templates
  transformData : Option Nat
deriving DecidableEq, Repr

/-- CSS classes of the search-box widget, one computed string per slot. -/
structure SearchBoxCssClasses where
  root : String
  form : String
  input : String
  submit : String
  submitIcon : String
  reset : String
  resetIcon : String
  loadingIndicator : String
  loadingIcon : String
deriving DecidableEq, Repr

/-- User overrides for the search-box CSS slots. -/
structure SearchBoxCssOverrides where
  root : Option String := none
  form : Option String := none
  input : Option String := none
  submit : Option String := none
  submitIcon : Option String := none
  reset : Option String := none
  resetIcon : Option String := none
  loadingIndicator : Option String := none
  loadingIcon : Option String := none
deriving DecidableEq, Repr

/-- The arguments captured by the search-box `renderer` closure at factory
time.  Note there is no render state: the search-box merges its templates at
factory time (`\x7b ...defaultTemplates, ...templates \x7d`). -/
structure SearchBoxRendererArgs where
  containerNode : Nat
  cssClasses : SearchBoxCssClasses
  placeholder : String
  templates : Templates
  autofocus : JsValue
  searchAsYouType : Bool
  showReset : Bool
  showSubmit : Bool
  showLoadingIndicator : Bool
deriving DecidableEq, Repr

/-- The connector-supplied render payload of the search-box renderer:
`\x7b refine, query, isSearchStalled \x7d`. -/
structure SearchBoxPayload where
  refine : Nat
  query : String
  isSearchStalled : Bool
deriving DecidableEq, Repr

/-- Observable side effects of the module: warnings emitted by the warning
channel, writes to a render state object, and calls into the external
DOM-rendering library (`render(vnode, containerNode)`), recorded with the
data the virtual node was built from. -/
inductive Effect where
  | warn (message : String)
  | writeRenderState
  | domRenderMenu (target : Nat) (props : Option TemplateProps)
      (items : List String) (canRefine : Bool)
  | domRenderSearchBox (target : Nat) (query : String) (templates : Templates)
      (isSearchStalled : Bool)
deriving DecidableEq, Repr

/-- Is this effect a call into the DOM-rendering library? -/
def isDomCall : Effect → Bool
  | .domRenderMenu _ _ _ _ => true
  | .domRenderSearchBox _ _ _ _ => true
  | _ => false

/-- Is this effect a write to the render state? -/
def isWriteRenderState : Effect → Bool
  | .writeRenderState => true
  | _ => false

/-- Number of calls into the DOM-rendering library in a trace. -/
def domCalls (effs : List Effect) : Nat :=
  (effs.filter isDomCall).length

/-- Number of render-state writes in a trace. -/
def writeCount (effs : List Effect) : Nat :=
  (effs.filter isWriteRenderState).length

/-- One invocation of the menu-select renderer closure (part_000 lines 14-44):
on `isFirstRendering` it stores the prepared template props into the render
state and returns without rendering; otherwise it calls the DOM-rendering
library once, reading `renderState.templateProps`. -/
def menuRendererStep (args : MenuRendererArgs) (payload : MenuPayload)
    (isFirstRendering : Bool) (renderState : MenuRenderState) :
    MenuRenderState × List Effect :=
  if isFirstRendering then
    ({ templateProps := some (prepareTemplateProps args.transformData
        menuDefaultTemplates payload.instantSearchInstance.templatesConfig
        args.templates) },
     [Effect.writeRenderState])
  else
    (renderState,
     [Effect.domRenderMenu args.containerNode renderState.templateProps
        payload.items payload.canRefine])

/-- One invocation of the search-box renderer closure (search-box.js lines
17-44): the closure takes only the payload — the connector still passes the
`isFirstRendering` flag as a second argument, which the closure ignores — and
calls the DOM-rendering library once on every invocation. -/
def searchBoxRendererStep (args : SearchBoxRendererArgs)
    (payload : SearchBoxPayload) (_isFirstRendering : Bool) : List Effect :=
  [Effect.domRenderSearchBox args.containerNode payload.query args.templates
     payload.isSearchStalled]

/-- Run the menu-select renderer over a sequence of connector invocations,
threading the render state and concatenating the effect traces. -/
def menuRenderRun (args : MenuRendererArgs) (st : MenuRenderState) :
    List (MenuPayload × Bool) → MenuRenderState × List Effect
  | [] => (st, [])
  | (p, b) :: rest =>
    let step := menuRendererStep args p b st
    let next := menuRenderRun args step.1 rest
    (next.1, step.2 ++ next.2)

/-- The usage synopsis thrown by `menuSelect` (part_000 lines 45-56), with
literal braces written as brace characters via escapes and the quote marks of
the sortBy default elided. -/
def menuSelectUsage : String :=
  "Usage:\nmenuSelect(\x7b\n  container,\n  attribute,\n  [ sortBy=[name:asc] ],\n  [ limit=10 ],\n  [ cssClasses.\x7broot, noRefinementRoot, select, option\x7d ]\n  [ templates.\x7bitem,seeAllOptions\x7d ],\n  [ transformData.\x7bitem\x7d ],\n  [ transformItems ]\n\x7d)"

/-- Modelled from the spec: `createDocumentationMessageGenerator` lives in
`lib/utils`, which is not under the provided sources.  Spec 7: a
ConfigurationError "always carries a usage synopsis" (parameter names and
defaults). -/
def searchBoxUsageSynopsis : String :=
  "Usage: searchBox(\x7b container, [ placeholder ], [ cssClasses ], [ autofocus=false ], [ searchAsYouType=true ], [ showReset=true ], [ showSubmit=true ], [ showLoadingIndicator=true ], [ queryHook ], [ templates ] \x7d)"

/-- Modelled from the spec: the message generator returned by
`createDocumentationMessageGenerator("search-box")` appends the search-box
usage synopsis to the specific complaint. -/
def withUsage (message : String) : String :=
  message ++ "\n\n" ++ searchBoxUsageSynopsis

/-- The complaint thrown by `searchBox` when `container` is missing. -/
def containerRequiredMessage : String :=
  "The `container` option is required."

/-- Modelled from the spec: `createDocumentationLink` lives in `lib/utils`,
which is not under the provided sources.  Spec 7: the unsupported-container
error "includes guidance toward an alternative (lower-level) integration
point". -/
def searchBoxConnectorDocumentationLink : String :=
  "https://www.algolia.com/doc/api-reference/widgets/search-box/js/#connector"

/-- The dedicated error thrown by `searchBox` for an `input` container
(search-box.js lines 128-137), apostrophes elided. -/
def searchBoxInputContainerMessage : String :=
  "The `container` option does not accept `input` elements since InstantSearch.js 3.\n\nYou may want to migrate using `connectSearchBox`: "
    ++ searchBoxConnectorDocumentationLink ++ "."

/-- The advisory emitted when `autofocus` is not a boolean. -/
def autofocusWarningMessage : String :=
  "The `autofocus` option only supports boolean values since InstantSearch.js 3."

/-- The options object accepted by `menuSelect` (destructuring defaults are
applied inside `menuSelectRun`; `none` is an absent property). -/
structure MenuSelectOptions where
  container : Option Container := none
  «attribute» : Option String := none
  sortBy : Option (List String) := none
  limit : Option Nat := none
  cssClasses : Option MenuSelectCssOverrides := none
  templates : Option Templates := none
  transformData : Option Nat := none
  transformItems : Option Nat := none
deriving DecidableEq, Repr

/-- The widget parameters `menuSelect` hands to the connector-made factory:
`makeWidget(\x7b attribute, limit, sortBy, transformItems \x7d)`. -/
structure MenuWidgetParams where
  «attribute» : String
  limit : Nat
  sortBy : List String
  transformItems : Option Nat
deriving DecidableEq, Repr

/-- The constructed menu-select widget: the captured renderer arguments and
the widget parameters passed to the connector. -/
structure MenuWidget where
  rendererArgs : MenuRendererArgs
  params : MenuWidgetParams
deriving DecidableEq, Repr

/-- The `menuSelect` factory (part_000 lines 110-145).  The connector
(`connectMenu` / `makeWidget`) is an external collaborator; its construction
outcome is passed in as `connect`: `Except.error e` models it throwing `e`.
Returns the construction outcome together with the trace of observable side
effects performed by the factory itself. -/
def menuSelectRun (env : DomEnv) (connect : Except String Unit)
    (opts : MenuSelectOptions) : Except String MenuWidget × List Effect :=
  match opts.container, opts.«attribute» with
  | some c, some attr =>
    if containerValFalsy c || (attr == "") then
      (Except.error menuSelectUsage, [])
    else
      match getContainerNode env c with
      | Except.error e => (Except.error e, [])
      | Except.ok node =>
        let userCss := opts.cssClasses.getD {}
        let cssClasses : MenuSelectCssClasses :=
          { root := cx [some (suitClass "MenuSelect" none none), userCss.root]
            noRefinementRoot := cx [some (suitClass "MenuSelect" (some "noRefinement") none), userCss.noRefinementRoot]
            select := cx [some (suitClass "MenuSelect" none (some "select")), userCss.select]
            option := cx [some (suitClass "MenuSelect" none (some "option")), userCss.option] }
        let rendererArgs : MenuRendererArgs :=
          { containerNode := node.id
            cssClasses := cssClasses
            renderState := { templateProps := none }
            templates := opts.templates.getD menuDefaultTemplates
            transformData := opts.transformData }
        match connect with
        | Except.error _ => (Except.error menuSelectUsage, [])
        | Except.ok _ =>
          (Except.ok
            { rendererArgs := rendererArgs
              params :=
                { «attribute» := attr
                  limit := opts.limit.getD 10
                  sortBy := opts.sortBy.getD ["name:asc"]
                  transformItems := opts.transformItems } }, [])
  | _, _ => (Except.error menuSelectUsage, [])

/-- The options object accepted by `searchBox`. -/
structure SearchBoxOptions where
  container : Option Container := none
  placeholder : Option String := none
  cssClasses : Option SearchBoxCssOverrides := none
  autofocus : Option JsValue := none
  searchAsYouType : Option Bool := none
  showReset : Option Bool := none
  showSubmit : Option Bool := none
  showLoadingIndicator : Option Bool := none
  queryHook : Option Nat := none
  templates : Option Templates := none
deriving DecidableEq, Repr

/-- The constructed search-box widget: the captured renderer arguments, the
container node the disposer closure captured, and the `queryHook` parameter
handed to the connector-made factory. -/
structure SearchBoxWidget where
  rendererArgs : SearchBoxRendererArgs
  disposeTarget : Nat
  queryHook : Option Nat
deriving DecidableEq, Repr

/-- The `searchBox` factory (search-box.js lines 110-185).  The whole options
object is optional (`= \x7b\x7d` parameter default).  The connector
(`connectSearchBox` / `makeWidget`) is external; its construction outcome is
passed in as `connect` — note the source wraps it in no try/catch, so a
connector error propagates unchanged. -/
def searchBoxRun (env : DomEnv) (connect : Except String Unit)
    (optsArg : Option SearchBoxOptions) :
    Except String SearchBoxWidget × List Effect :=
  let opts := optsArg.getD {}
  match opts.container with
  | none => (Except.error (withUsage containerRequiredMessage), [])
  | some c =>
    if containerValFalsy c then
      (Except.error (withUsage containerRequiredMessage), [])
    else
      match getContainerNode env c with
      | Except.error e => (Except.error e, [])
      | Except.ok node =>
        if node.tagName == "INPUT" then
          (Except.error searchBoxInputContainerMessage, [])
        else
          let autofocus := opts.autofocus.getD (JsValue.bool false)
          let warnEffects :=
            if jsTypeofBoolean autofocus then ([] : List Effect)
            else [Effect.warn autofocusWarningMessage]
          let userCss := opts.cssClasses.getD {}
          let cssClasses : SearchBoxCssClasses :=
            { root := cx [some (suitClass "SearchBox" none none), userCss.root]
              form := cx [some (suitClass "SearchBox" none (some "form")), userCss.form]
              input := cx [some (suitClass "SearchBox" none (some "input")), userCss.input]
              submit := cx [some (suitClass "SearchBox" none (some "submit")), userCss.submit]
              submitIcon := cx [some (suitClass "SearchBox" none (some "submitIcon")), userCss.submitIcon]
              reset := cx [some (suitClass "SearchBox" none (some "reset")), userCss.reset]
              resetIcon := cx [some (suitClass "SearchBox" none (some "resetIcon")), userCss.resetIcon]
              loadingIndicator := cx [some (suitClass "SearchBox" none (some "loadingIndicator")), userCss.loadingIndicator]
              loadingIcon := cx [some (suitClass "SearchBox" none (some "loadingIcon")), userCss.loadingIcon] }
          let rendererArgs : SearchBoxRendererArgs :=
            { containerNode := node.id
              cssClasses := cssClasses
              placeholder := opts.placeholder.getD ""
              templates := mergeTemplates searchBoxDefaultTemplates (opts.templates.getD [])
              autofocus := autofocus
              searchAsYouType := opts.searchAsYouType.getD true
              showReset := opts.showReset.getD true
              showSubmit := opts.showSubmit.getD true
              showLoadingIndicator := opts.showLoadingIndicator.getD true }
          match connect with
          | Except.error e => (Except.error e, warnEffects)
          | Except.ok _ =>
            (Except.ok
              { rendererArgs := rendererArgs
                disposeTarget := node.id
                queryHook := opts.queryHook }, warnEffects)

/-- The DOM as far as the disposer touches it: the child list of the parent of
the container node (node ids attached to that parent) and the rendered content
of each node, as an association list from node id to content items. -/
structure Dom where
  parentChildren : List Nat
  nodeContents : List (Nat × List String)
deriving DecidableEq, Repr

/-- The teardown closure returned by `disposer(containerNode)` (search-box.js
lines 46-50): `range.selectNodeContents(containerNode); range.deleteContents()`
— per DOM Range semantics this removes every child of the container node and
nothing else; in particular the container stays attached to its parent. -/
def disposer (containerNode : Nat) (d : Dom) : Dom :=
  { d with
    nodeContents :=
      d.nodeContents.map (fun kv => if kv.1 = containerNode then (kv.1, []) else kv) }

/-
  Helper lemmas about association-list lookup, used by the template-merge and
  disposer proofs.
-/

theorem lookup_cons (k : String) (a : String × String) (l : Templates) :
    (a :: l).lookup k = if k == a.1 then some a.2 else l.lookup k := by
  cases a with
  | mk k₁ v =>
    by_cases h : k == k₁
    · simp [List.lookup, h]
    · simp [List.lookup, h]

theorem lookup_append (k : String) (l₁ l₂ : Templates) :
    (l₁ ++ l₂).lookup k = (l₁.lookup k).orElse (fun _ => l₂.lookup k) := by
  induction l₁ with
  | nil => rfl
  | cons a l ih =>
    rw [List.cons_append, lookup_cons, lookup_cons]
    by_cases h : k == a.1
    · simp [h]
    · simp only [h]
      exact ih

theorem lookup_map_pair (f : String → String → String) (k : String)
    (l : Templates) :
    (l.map (fun kv => (kv.1, f kv.1 kv.2))).lookup k = (l.lookup k).map (f k) := by
  induction l with
  | nil => rfl
  | cons a l ih =>
    rw [List.map_cons, lookup_cons, lookup_cons]
    by_cases h : k == a.1
    · have hk : k = a.1 := eq_of_beq h
      simp [h, hk]
    · simp only [h]
      exact ih

theorem lookup_filter_of_keyed (p : String × String → Bool) (k : String)
    (l : Templates) (h : ∀ kv ∈ l, kv.1 = k → p kv = true) :
    (l.filter p).lookup k = l.lookup k := by
  induction l with
  | nil => rfl
  | cons a l ih =>
    have hrest : ∀ kv ∈ l, kv.1 = k → p kv = true := by
      intro kv hm hk
      exact h kv (List.mem_cons_of_mem a hm) hk
    by_cases hk : k == a.1
    · have hk' : a.1 = k := (eq_of_beq hk).symm
      have hp : p a = true := h a (List.mem_cons_self a l) hk'
      rw [List.filter_cons_of_pos hp, lookup_cons, lookup_cons]
      simp [hk]
    · rw [lookup_cons]
      simp only [hk, if_false]
      by_cases hp : p a = true
      · rw [List.filter_cons_of_pos hp, lookup_cons]
        simp only [hk, if_false]
        exact ih hrest
      · rw [List.filter_cons_of_neg (by simpa using hp)]
        exact ih hrest

theorem lookup_filter_none (p : String × String → Bool) (k : String)
    (l : Templates) (h : l.lookup k = none) :
    (l.filter p).lookup k = none := by
  induction l with
  | nil => rfl
  | cons a l ih =>
    rw [lookup_cons] at h
    by_cases hk : k == a.1
    · simp [hk] at h
    · simp only [hk, if_false] at h
      by_cases hp : p a = true
      · rw [List.filter_cons_of_pos hp, lookup_cons]
        simp only [hk, if_false]
        exact ih h
      · rw [List.filter_cons_of_neg (by simpa using hp)]
        exact ih h

theorem lookup_clear_map (n : Nat) (l : List (Nat × List String)) :
    (l.map (fun kv => if kv.1 = n then (kv.1, ([] : List String)) else kv)).lookup n
      = (l.lookup n).map (fun _ => []) := by
  induction l with
  | nil => rfl
  | cons a l ih =>
    cases a with
    | mk k v =>
      simp only [List.map_cons]
      by_cases h : k = n
      · subst h
        rw [show (if (k, v).1 = k then ((k, v).1, ([] : List String)) else (k, v))
              = (k, ([] : List String)) from if_pos rfl]
        simp [List.lookup, ih]
      · rw [show (if (k, v).1 = n then ((k, v).1, ([] : List String)) else (k, v))
              = (k, v) from if_neg h]
        have h' : (n == k) = false := by simp [Ne.symm h]
        simp [List.lookup, h', ih]

/-- `suitClass` never returns the empty string: it always starts with the
"ais-" namespace. -/
theorem suitClass_ne_empty (cn : String) (m d : Option String) :
    suitClass cn m d ≠ "" := by
  intro h
  have hlen := congrArg String.length h
  have h0 : ("" : String).length = 0 := rfl
  have h4 : ("ais-" : String).length = 4 := rfl
  simp only [suitClass, String.length_append, h0, h4] at hlen
  omega

/-- C6: calling the teardown function returned by the search-box disposer
removes all child content of the container node, leaves the container node
empty, and leaves the container node itself attached to its parent (the node
is not removed from the document). -/
theorem disposer_clears_container_keeps_attached (d : Dom) (node : Nat)
    (cs : List String) (hAttached : node ∈ d.parentChildren)
    (hContent : d.nodeContents.lookup node = some cs) :
    (disposer node d).nodeContents.lookup node = some [] ∧
    node ∈ (disposer node d).parentChildren ∧
    (disposer node d).parentChildren = d.parentChildren := by
  refine ⟨?_, hAttached, rfl⟩
  show (d.nodeContents.map _).lookup node = some []
  rw [lookup_clear_map, hContent]
  rfl

/-- Witness for C6 on a concrete document: a container (node 0) holding two
rendered children, attached to a parent that also holds a sibling (node 1). -/
theorem disposer_clears_container_keeps_attached_witness :
    (0 : Nat) ∈ (Dom.mk [0, 1] [(0, ["hit1", "hit2"]), (1, ["other"])]).parentChildren ∧
    (Dom.mk [0, 1] [(0, ["hit1", "hit2"]), (1, ["other"])]).nodeContents.lookup 0 =
      some ["hit1", "hit2"] ∧
    (disposer 0 (Dom.mk [0, 1] [(0, ["hit1", "hit2"]), (1, ["other"])])).nodeContents.lookup 0 =
      some [] ∧
    (0 : Nat) ∈ (disposer 0 (Dom.mk [0, 1] [(0, ["hit1", "hit2"]), (1, ["other"])])).parentChildren := by
  refine ⟨by decide, by decide, ?_, ?_⟩
  · exact (disposer_clears_container_keeps_attached _ 0 ["hit1", "hit2"]
      (by decide) (by decide)).1
  · exact (disposer_clears_container_keeps_attached _ 0 ["hit1", "hit2"]
      (by decide) (by decide)).2.1

/-- C10: the teardown function returned by the search-box disposer is
idempotent — running it again on the document state left by the first run
changes nothing (the container is already empty; no error is raised, the
operation is a total function on the modelled DOM). -/
theorem disposer_idempotent (d : Dom) (node : Nat) :
    disposer node (disposer node d) = disposer node d := by
  simp only [disposer, List.map_map]
  congr 1
  apply List.map_congr_left
  intro kv _
  by_cases h : kv.1 = node
  · simp [Function.comp, h]
  · simp [Function.comp, h]

/-- C8: the class-name builder is deterministic and pure (same arguments give
the same class string), and user-supplied override tokens are concatenated by
whitespace-joining without deduplication — joining the computed class with an
override equal to itself keeps both copies. -/
theorem classname_builder_deterministic_no_dedup :
    (∀ (cn : String) (m d : Option String), suitClass cn m d = suitClass cn m d) ∧
    (∀ (cn tok : String), tok ≠ "" →
      cx [some (suitClass cn none none), some tok] =
        suitClass cn none none ++ " " ++ tok) ∧
    cx [some (suitClass "SearchBox" none none), some (suitClass "SearchBox" none none)] =
      "ais-SearchBox ais-SearchBox" := by
  refine ⟨fun _ _ _ => rfl, ?_, by rfl⟩
  intro cn tok htok
  have hbase : (suitClass cn none none == "") = false := by
    simp [suitClass_ne_empty cn none none]
  have ht : (tok == "") = false := by simp [htok]
  simp [cx, List.filter, joinSpace, hbase, ht]

/-- Witness for C8 with a concrete nonempty override token (and a duplicate of
the computed class as the token, exercising the no-deduplication clause). -/
theorem classname_builder_deterministic_no_dedup_witness :
    ("my-Class" : String) ≠ "" ∧
    cx [some (suitClass "MenuSelect" none none), some "my-Class"] =
      suitClass "MenuSelect" none none ++ " " ++ "my-Class" := by
  exact ⟨by decide,
    classname_builder_deterministic_no_dedup.2.1 "MenuSelect" "my-Class" (by decide)⟩

/-- C9: calling `searchBox` with no argument at all behaves exactly like
calling it with an empty options object — the parameter defaults to the empty
object and the factory throws the container-required usage error (it does not
fail on destructuring). -/
theorem searchBox_no_argument_defaults_to_empty :
    ∀ (env : DomEnv) (connect : Except String Unit),
      searchBoxRun env connect none = searchBoxRun env connect (some {}) ∧
      (searchBoxRun env connect none).1 =
        Except.error (withUsage containerRequiredMessage) := by
  intro env connect
  exact ⟨rfl, rfl⟩

/-- C4: constructing the search-box widget with a container handle whose
element kind is INPUT raises the dedicated unsupported-container error, with
an empty effect trace — so no warning and no DOM write happens, i.e. the
rejection precedes every other validation side effect of the factory. -/
theorem searchBox_rejects_input_container (env : DomEnv)
    (connect : Except String Unit) (opts : SearchBoxOptions) (n : Nat)
    (h : opts.container = some (Container.node { id := n, tagName := "INPUT" })) :
    searchBoxRun env connect (some opts) =
      (Except.error searchBoxInputContainerMessage, []) := by
  simp [searchBoxRun, h, getContainerNode, containerValFalsy]

/-- Witness for C4: a concrete INPUT container, with a deliberately mis-typed
`autofocus` (which would emit a warning later) — the factory still fails with
the dedicated error and an empty effect trace. -/
theorem searchBox_rejects_input_container_witness :
    ({ container := some (Container.node { id := 7, tagName := "INPUT" }),
       autofocus := some (JsValue.str "yes") } : SearchBoxOptions).container =
      some (Container.node { id := 7, tagName := "INPUT" }) ∧
    searchBoxRun { bySelector := [] } (Except.ok ())
        (some { container := some (Container.node { id := 7, tagName := "INPUT" }),
                autofocus := some (JsValue.str "yes") }) =
      (Except.error searchBoxInputContainerMessage, []) :=
  ⟨rfl, searchBox_rejects_input_container _ _ _ 7 rfl⟩

theorem mergeTemplates_lookup_user (defaults user : Templates) (slot v : String)
    (h : user.lookup slot = some v) :
    (mergeTemplates defaults user).lookup slot = some v := by
  unfold mergeTemplates
  rw [lookup_append, lookup_map_pair (fun k w => (user.lookup k).getD w)]
  cases hd : defaults.lookup slot with
  | some w => simp [h, hd]
  | none =>
    have hfil : (user.filter (fun kv => (defaults.lookup kv.1).isNone)).lookup slot
        = user.lookup slot := by
      apply lookup_filter_of_keyed
      intro kv _ hk
      rw [hk, hd]
      rfl
    simp [hd, hfil, h]

theorem mergeTemplates_lookup_default (defaults user : Templates) (slot : String)
    (h : user.lookup slot = none) :
    (mergeTemplates defaults user).lookup slot = defaults.lookup slot := by
  unfold mergeTemplates
  rw [lookup_append, lookup_map_pair (fun k w => (user.lookup k).getD w)]
  cases hd : defaults.lookup slot with
  | some w => simp [h, hd]
  | none =>
    rw [lookup_filter_none _ _ _ h]
    simp [hd]

/-- C5: for every template slot present in the user-supplied templates the
resolved bundle uses the user value; for every absent slot it uses the default
value; and the concrete example from the spec resolves as stated. -/
theorem template_merge_user_overrides_defaults :
    (∀ (defaults user : Templates) (slot v : String),
       user.lookup slot = some v →
       (mergeTemplates defaults user).lookup slot = some v) ∧
    (∀ (defaults user : Templates) (slot : String),
       user.lookup slot = none →
       (mergeTemplates defaults user).lookup slot = defaults.lookup slot) ∧
    (mergeTemplates [("item", "DEFAULT_ITEM"), ("seeAllOptions", "DEFAULT_ALL")]
        [("seeAllOptions", "All")]).lookup "item" = some "DEFAULT_ITEM" ∧
    (mergeTemplates [("item", "DEFAULT_ITEM"), ("seeAllOptions", "DEFAULT_ALL")]
        [("seeAllOptions", "All")]).lookup "seeAllOptions" = some "All" :=
  ⟨mergeTemplates_lookup_user, mergeTemplates_lookup_default, by decide, by decide⟩

/-- Witness for C5 on the spec example: the present slot takes the user value,
the absent slot falls back to the default. -/
theorem template_merge_user_overrides_defaults_witness :
    ([("seeAllOptions", "All")] : Templates).lookup "seeAllOptions" = some "All" ∧
    (mergeTemplates [("item", "DEFAULT_ITEM"), ("seeAllOptions", "DEFAULT_ALL")]
        [("seeAllOptions", "All")]).lookup "seeAllOptions" = some "All" ∧
    ([("seeAllOptions", "All")] : Templates).lookup "item" = none ∧
    (mergeTemplates [("item", "DEFAULT_ITEM"), ("seeAllOptions", "DEFAULT_ALL")]
        [("seeAllOptions", "All")]).lookup "item" =
      ([("item", "DEFAULT_ITEM"), ("seeAllOptions", "DEFAULT_ALL")] : Templates).lookup "item" := by
  refine ⟨by decide, ?_, by decide, ?_⟩
  · exact template_merge_user_overrides_defaults.1 _ _ "seeAllOptions" "All" (by decide)
  · exact template_merge_user_overrides_defaults.2.1 _ _ "item" (by decide)

/-- A concrete search-box renderer argument bundle, as the factory would
capture for a plain DIV container with default options. -/
def sampleSearchBoxArgs : SearchBoxRendererArgs :=
  { containerNode := 5
    cssClasses :=
      { root := "ais-SearchBox"
        form := "ais-SearchBox-form"
        input := "ais-SearchBox-input"
        submit := "ais-SearchBox-submit"
        submitIcon := "ais-SearchBox-submitIcon"
        reset := "ais-SearchBox-reset"
        resetIcon := "ais-SearchBox-resetIcon"
        loadingIndicator := "ais-SearchBox-loadingIndicator"
        loadingIcon := "ais-SearchBox-loadingIcon" }
    placeholder := ""
    templates := searchBoxDefaultTemplates
    autofocus := JsValue.bool false
    searchAsYouType := true
    showReset := true
    showSubmit := true
    showLoadingIndicator := true }

/-- A concrete search-box render payload. -/
def sampleSearchBoxPayload : SearchBoxPayload :=
  { refine := 0, query := "phone", isSearchStalled := false }

/-- C1 as stated is false on the search-box widget: its renderer closure,
invoked with `isFirstRendering = true`, performs a call into the
DOM-rendering library (it ignores the flag and renders on every invocation),
instead of performing none. -/
theorem searchBox_renderer_renders_on_first_invocation :
    domCalls (searchBoxRendererStep sampleSearchBoxArgs sampleSearchBoxPayload true) = 1 ∧
    ¬ domCalls (searchBoxRendererStep sampleSearchBoxArgs sampleSearchBoxPayload true) = 0 := by
  exact ⟨rfl, by decide⟩

/-- C1 amended: the first-render contract holds for the menu-select renderer
closure — `isFirstRendering = true` populates `renderState.templateProps` and
performs no DOM-library call, and a subsequent `false` invocation calls the
DOM-rendering library exactly once using the stored TemplateProps.  The
search-box renderer instead ignores the flag and calls the DOM-rendering
library exactly once on every invocation (including the first), using the
template bundle merged at factory time. -/
theorem renderer_first_render_contract :
    (∀ (args : MenuRendererArgs) (payload : MenuPayload) (st : MenuRenderState),
       (menuRendererStep args payload true st).1.templateProps =
         some (prepareTemplateProps args.transformData menuDefaultTemplates
           payload.instantSearchInstance.templatesConfig args.templates) ∧
       domCalls (menuRendererStep args payload true st).2 = 0) ∧
    (∀ (args : MenuRendererArgs) (payload : MenuPayload) (st : MenuRenderState),
       (menuRendererStep args payload false st).2 =
         [Effect.domRenderMenu args.containerNode st.templateProps
            payload.items payload.canRefine] ∧
       (menuRendererStep args payload false st).1 = st ∧
       domCalls (menuRendererStep args payload false st).2 = 1) ∧
    (∀ (args : SearchBoxRendererArgs) (payload : SearchBoxPayload) (b : Bool),
       searchBoxRendererStep args payload b =
         [Effect.domRenderSearchBox args.containerNode payload.query
            args.templates payload.isSearchStalled] ∧
       domCalls (searchBoxRendererStep args payload b) = 1) :=
  ⟨fun _ _ _ => ⟨rfl, rfl⟩, fun _ _ _ => ⟨rfl, rfl, rfl⟩, fun _ _ _ => ⟨rfl, rfl⟩⟩

/-- `writeCount` distributes over trace concatenation. -/
theorem writeCount_append (l₁ l₂ : List Effect) :
    writeCount (l₁ ++ l₂) = writeCount l₁ + writeCount l₂ := by
  simp [writeCount, List.filter_append]

/-- A run of the menu-select renderer in which every invocation has
`isFirstRendering = false` leaves the render state untouched and performs no
render-state write. -/
theorem menuRenderRun_all_false (args : MenuRendererArgs)
    (invs : List (MenuPayload × Bool)) (st : MenuRenderState)
    (h : ∀ pb ∈ invs, pb.2 = false) :
    (menuRenderRun args st invs).1 = st ∧
    writeCount (menuRenderRun args st invs).2 = 0 := by
  induction invs generalizing st with
  | nil => exact ⟨rfl, rfl⟩
  | cons pb rest ih =>
    have hb : pb.2 = false := h pb (List.mem_cons_self _ _)
    have hrest : ∀ x ∈ rest, x.2 = false := fun x hx => h x (List.mem_cons_of_mem _ hx)
    cases pb with
    | mk p b =>
      have hb' : b = false := hb
      subst hb'
      obtain ⟨ih1, ih2⟩ := ih st hrest
      constructor
      · simpa [menuRenderRun, menuRendererStep] using ih1
      · simp only [menuRenderRun, menuRendererStep]
        simp only [if_neg (by simp : ¬(false = true))]
        rw [writeCount_append]
        simpa [writeCount, isWriteRenderState] using ih2

/-- C7: the menu-select RenderState is empty when the factory creates it; on
an invocation sequence whose `isFirstRendering` flag is true exactly once and
first, `templateProps` is written exactly once (by that first invocation) and
every later invocation leaves the state unchanged (it only reads it). -/
theorem renderState_empty_then_written_once :
    (∀ (env : DomEnv) (connect : Except String Unit) (opts : MenuSelectOptions)
       (w : MenuWidget),
       (menuSelectRun env connect opts).1 = Except.ok w →
       w.rendererArgs.renderState = { templateProps := none }) ∧
    (∀ (args : MenuRendererArgs) (p : MenuPayload)
       (rest : List (MenuPayload × Bool)),
       (∀ pb ∈ rest, pb.2 = false) →
       writeCount (menuRenderRun args { templateProps := none }
         ((p, true) :: rest)).2 = 1 ∧
       (menuRenderRun args { templateProps := none } ((p, true) :: rest)).1 =
         { templateProps := some (prepareTemplateProps args.transformData
             menuDefaultTemplates p.instantSearchInstance.templatesConfig
             args.templates) }) := by
  constructor
  · intro env connect opts w hok
    unfold menuSelectRun at hok
    split at hok
    · split at hok
      · simp at hok
      · split at hok
        · simp at hok
        · split at hok
          · simp at hok
          · simp only [Except.ok.injEq] at hok
            rw [← hok]
    · simp at hok
  · intro args p rest hrest
    obtain ⟨h1, h2⟩ := menuRenderRun_all_false args rest
      (menuRendererStep args p true { templateProps := none }).1 hrest
    constructor
    · simp only [menuRenderRun]
      rw [writeCount_append]
      rw [h2]
      rfl
    · simp only [menuRenderRun]
      rw [h1]
      rfl

/-- The widget value `menuSelect` constructs for a DIV container with id 3 and
attribute "brand", all other options defaulted. -/
def sampleMenuWidget : MenuWidget :=
  { rendererArgs :=
      { containerNode := 3
        cssClasses :=
          { root := "ais-MenuSelect"
            noRefinementRoot := "ais-MenuSelect--noRefinement"
            select := "ais-MenuSelect-select"
            option := "ais-MenuSelect-option" }
        renderState := { templateProps := none }
        templates := menuDefaultTemplates
        transformData := none }
    params :=
      { «attribute» := "brand"
        limit := 10
        sortBy := ["name:asc"]
        transformItems := none } }

/-- A concrete menu-select render payload. -/
def sampleMenuPayload : MenuPayload :=
  { refine := 0
    items := ["Apple", "Samsung"]
    canRefine := true
    instantSearchInstance := { templatesConfig := [("compileOptions", "none")] } }

/-- Witness for C7: a concretely constructed menu-select widget has an empty
render state, and a concrete true-then-false invocation sequence writes
`templateProps` exactly once. -/
theorem renderState_empty_then_written_once_witness :
    (menuSelectRun { bySelector := [] } (Except.ok ())
        { container := some (Container.node { id := 3, tagName := "DIV" })
          «attribute» := some "brand" }).1 = Except.ok sampleMenuWidget ∧
    sampleMenuWidget.rendererArgs.renderState = { templateProps := none } ∧
    writeCount (menuRenderRun sampleMenuWidget.rendererArgs
      { templateProps := none }
      ((sampleMenuPayload, true) :: [(sampleMenuPayload, false)])).2 = 1 := by
  refine ⟨by rfl, ?_, ?_⟩
  · exact renderState_empty_then_written_once.1 { bySelector := [] } (Except.ok ())
      { container := some (Container.node { id := 3, tagName := "DIV" })
        «attribute» := some "brand" } sampleMenuWidget (by rfl)
  · refine (renderState_empty_then_written_once.2 sampleMenuWidget.rendererArgs
      sampleMenuPayload [(sampleMenuPayload, false)] ?_).1
    intro pb hpb
    rw [List.mem_singleton.mp hpb]

/-- Every message produced by the search-box documentation message generator
contains the usage synopsis. -/
theorem withUsage_contains_synopsis (m : String) :
    containsStr (withUsage m) searchBoxUsageSynopsis := by
  refine ⟨(m ++ "\n\n").data, [], ?_⟩
  simp [withUsage, String.data_append]

/-- C2: a configuration missing `container` makes either widget factory throw
an error whose message contains the usage synopsis, with an empty effect
trace (no DOM node is touched); for `menuSelect`, a configuration missing
`attribute` fails the same way. -/
theorem missing_required_option_usage_error :
    (∀ (env : DomEnv) (connect : Except String Unit) (opts : SearchBoxOptions),
       opts.container = none →
       searchBoxRun env connect (some opts) =
         (Except.error (withUsage containerRequiredMessage), []) ∧
       containsStr (withUsage containerRequiredMessage) searchBoxUsageSynopsis) ∧
    (∀ (env : DomEnv) (connect : Except String Unit) (opts : MenuSelectOptions),
       opts.container = none ∨ opts.«attribute» = none →
       menuSelectRun env connect opts = (Except.error menuSelectUsage, []) ∧
       containsStr menuSelectUsage menuSelectUsage) := by
  constructor
  · intro env connect opts h
    refine ⟨?_, withUsage_contains_synopsis _⟩
    simp [searchBoxRun, h]
  · intro env connect opts h
    refine ⟨?_, ⟨[], [], by simp⟩⟩
    rcases h with h | h
    · cases ha : opts.«attribute» <;> simp [menuSelectRun, h, ha]
    · cases hc : opts.container <;> simp [menuSelectRun, h, hc]

/-- Witness for C2: the empty search-box configuration and a menu-select
configuration with a container but no attribute. -/
theorem missing_required_option_usage_error_witness :
    ({} : SearchBoxOptions).container = none ∧
    searchBoxRun { bySelector := [] } (Except.ok ()) (some {}) =
      (Except.error (withUsage containerRequiredMessage), []) ∧
    ({ container := some (Container.node { id := 2, tagName := "DIV" }) } :
        MenuSelectOptions).«attribute» = none ∧
    menuSelectRun { bySelector := [] } (Except.ok ())
        { container := some (Container.node { id := 2, tagName := "DIV" }) } =
      (Except.error menuSelectUsage, []) := by
  refine ⟨rfl, ?_, rfl, ?_⟩
  · exact (missing_required_option_usage_error.1 { bySelector := [] }
      (Except.ok ()) {} rfl).1
  · exact (missing_required_option_usage_error.2 { bySelector := [] }
      (Except.ok ())
      { container := some (Container.node { id := 2, tagName := "DIV" }) }
      (Or.inr rfl)).1

/-- A fully valid search-box configuration whose container is a DIV. -/
def sampleSearchBoxOptions : SearchBoxOptions :=
  { container := some (Container.node { id := 4, tagName := "DIV" }) }

set_option maxRecDepth 4000 in
/-- C3 as stated is false on the search-box factory: an exception raised by
the connector during construction propagates to the caller unchanged — it is
not caught and re-raised as the usage/configuration error (the error the
caller sees is the connector message, which is not the usage error and does
not contain the usage synopsis). -/
theorem searchBox_propagates_connector_error :
    (searchBoxRun { bySelector := [] } (Except.error "connector exception")
        (some sampleSearchBoxOptions)).1 = Except.error "connector exception" ∧
    "connector exception" ≠ withUsage containerRequiredMessage ∧
    "connector exception" ≠ menuSelectUsage ∧
    ¬ containsStr "connector exception" searchBoxUsageSynopsis := by
  refine ⟨rfl, by decide, by decide, ?_⟩
  rintro ⟨a, b, hab⟩
  have hlen := congrArg List.length hab
  have h1 : ("connector exception" : String).data.length = 19 := by decide
  have h2 : searchBoxUsageSynopsis.data.length = 213 := by decide
  rw [h1] at hlen
  simp only [List.length_append] at hlen
  omega

/-- C3 amended: the single-error-surface behaviour holds for `menuSelect`,
whose factory wraps any connector construction error in the usage error; the
`searchBox` factory has no such wrapping and propagates the connector error
unchanged to the caller. -/
theorem connector_error_surface :
    (∀ (env : DomEnv) (opts : MenuSelectOptions) (e : String) (c : Container)
       (attr : String) (node : DomNode),
       opts.container = some c → opts.«attribute» = some attr →
       containerValFalsy c = false → (attr == "") = false →
       getContainerNode env c = Except.ok node →
       menuSelectRun env (Except.error e) opts =
         (Except.error menuSelectUsage, [])) ∧
    (∀ (env : DomEnv) (opts : SearchBoxOptions) (e : String) (c : Container)
       (node : DomNode),
       opts.container = some c → containerValFalsy c = false →
       getContainerNode env c = Except.ok node →
       (node.tagName == "INPUT") = false →
       (searchBoxRun env (Except.error e) (some opts)).1 = Except.error e) := by
  constructor
  · intro env opts e c attr node hc ha hcf haf hres
    simp [menuSelectRun, hc, ha, hcf, haf, hres]
  · intro env opts e c node hc hcf hres htag
    simp [searchBoxRun, hc, hcf, hres, htag]

/-- Witness for C3 amended: concrete DIV containers; the menu-select factory
converts the connector error into its usage error, the search-box factory
surfaces the connector error itself. -/
theorem connector_error_surface_witness :
    ({ container := some (Container.node { id := 2, tagName := "DIV" })
       «attribute» := some "brand" } : MenuSelectOptions).container =
      some (Container.node { id := 2, tagName := "DIV" }) ∧
    menuSelectRun { bySelector := [] } (Except.error "deep failure")
        { container := some (Container.node { id := 2, tagName := "DIV" })
          «attribute» := some "brand" } =
      (Except.error menuSelectUsage, []) ∧
    (searchBoxRun { bySelector := [] } (Except.error "deep failure")
        (some sampleSearchBoxOptions)).1 = Except.error "deep failure" := by
  refine ⟨rfl, ?_, ?_⟩
  · exact connector_error_surface.1 { bySelector := [] }
      { container := some (Container.node { id := 2, tagName := "DIV" })
        «attribute» := some "brand" } "deep failure"
      (Container.node { id := 2, tagName := "DIV" }) "brand"
      { id := 2, tagName := "DIV" } rfl rfl rfl rfl rfl
  · exact connector_error_surface.2 { bySelector := [] } sampleSearchBoxOptions
      "deep failure" (Container.node { id := 4, tagName := "DIV" })
      { id := 4, tagName := "DIV" } rfl rfl rfl rfl

end InstantSearch
